import Mathlib

set_option maxRecDepth 100000
set_option maxHeartbeats 1000000

/-!
Shallow embedding of `example-prjs/mentor_workspace/mntr_ex5/mnist_mlp/firmware/weights/b4.h`,
an auto-generated constant-data header holding the 256-entry bias vector `b4` of one layer
of an MNIST MLP.  The header consists of an include guard (`B4_H_`), a build-mode
conditional on the macro `__SYNTHESIS__` selecting between a zero-initialized placeholder
definition (line 10) and a literal-valued definition (line 12), and the 256 four-decimal
literals themselves.  Element values are modelled as exact rationals: the C literal
`-0.1326` is transcribed as `mkRat (-1326) 10000`.
-/

namespace B4Header

/-- The initializer list on line 12 of `b4.h`, transcribed literal by literal in index
order; the four-decimal literal with digits `k` becomes the exact rational `k / 10000`. -/
def b4_synth_values : List ℚ := [
    mkRat (-1326) 10000, mkRat (-2092) 10000, mkRat (-2121) 10000, mkRat (-1416) 10000,
    mkRat (-2045) 10000, mkRat (-2161) 10000, mkRat (-2601) 10000, mkRat (-998) 10000,
    mkRat (-1124) 10000, mkRat (-799) 10000, mkRat (-2167) 10000, mkRat (-1787) 10000,
    mkRat 70 10000, mkRat (-1391) 10000, mkRat (-1298) 10000, mkRat (-1411) 10000,
    mkRat (-910) 10000, mkRat (-1364) 10000, mkRat (-433) 10000, mkRat (-1804) 10000,
    mkRat (-1886) 10000, mkRat (-1896) 10000, mkRat (-2016) 10000, mkRat (-1947) 10000,
    mkRat (-1379) 10000, mkRat (-252) 10000, mkRat (-635) 10000, mkRat 984 10000,
    mkRat (-1527) 10000, mkRat (-968) 10000, mkRat (-1649) 10000, mkRat (-1321) 10000,
    mkRat (-1358) 10000, mkRat (-1319) 10000, mkRat (-695) 10000, mkRat (-677) 10000,
    mkRat (-952) 10000, mkRat (-1008) 10000, mkRat (-247) 10000, mkRat (-2302) 10000,
    mkRat (-603) 10000, mkRat (-1063) 10000, mkRat (-666) 10000, mkRat (-1769) 10000,
    mkRat (-679) 10000, mkRat (-1644) 10000, mkRat (-869) 10000, mkRat (-2376) 10000,
    mkRat (-2032) 10000, mkRat (-2634) 10000, mkRat (-1487) 10000, mkRat (-441) 10000,
    mkRat (-786) 10000, mkRat (-1214) 10000, mkRat (-746) 10000, mkRat (-1626) 10000,
    mkRat (-906) 10000, mkRat (-844) 10000, mkRat 86 10000, mkRat (-1645) 10000,
    mkRat (-1422) 10000, mkRat (-1091) 10000, mkRat (-2137) 10000, mkRat (-2501) 10000,
    mkRat (-69) 10000, mkRat (-2051) 10000, mkRat (-713) 10000, mkRat (-1181) 10000,
    mkRat (-1385) 10000, mkRat (-278) 10000, mkRat (-297) 10000, mkRat (-958) 10000,
    mkRat (-898) 10000, mkRat 206 10000, mkRat (-1141) 10000, mkRat (-1261) 10000,
    mkRat (-2135) 10000, mkRat (-1169) 10000, mkRat (-247) 10000, mkRat (-1346) 10000,
    mkRat (-2172) 10000, mkRat (-1054) 10000, mkRat (-1447) 10000, mkRat (-642) 10000,
    mkRat (-1364) 10000, mkRat (-1780) 10000, mkRat (-59) 10000, mkRat (-1047) 10000,
    mkRat (-765) 10000, mkRat (-1538) 10000, mkRat (-689) 10000, mkRat (-1119) 10000,
    mkRat (-2540) 10000, mkRat (-988) 10000, mkRat (-540) 10000, mkRat (-1653) 10000,
    mkRat 129 10000, mkRat (-1750) 10000, mkRat (-628) 10000, mkRat (-1074) 10000,
    mkRat (-1850) 10000, mkRat (-2101) 10000, mkRat (-2290) 10000, mkRat (-841) 10000,
    mkRat (-2285) 10000, mkRat (-995) 10000, mkRat (-2102) 10000, mkRat (-1037) 10000,
    mkRat (-1851) 10000, mkRat (-1164) 10000, mkRat (-167) 10000, mkRat (-1352) 10000,
    mkRat (-1288) 10000, mkRat (-778) 10000, mkRat (-1216) 10000, mkRat (-1592) 10000,
    mkRat (-1176) 10000, mkRat (-1091) 10000, mkRat (-1878) 10000, mkRat (-1686) 10000,
    mkRat (-1777) 10000, mkRat (-1279) 10000, mkRat (-1160) 10000, mkRat (-2089) 10000,
    mkRat (-585) 10000, mkRat (-334) 10000, mkRat (-1846) 10000, mkRat (-1948) 10000,
    mkRat (-1588) 10000, mkRat (-880) 10000, mkRat (-1588) 10000, mkRat (-1495) 10000,
    mkRat (-1278) 10000, mkRat (-182) 10000, mkRat (-1386) 10000, mkRat (-1104) 10000,
    mkRat (-687) 10000, mkRat (-1702) 10000, mkRat (-2141) 10000, mkRat (-2277) 10000,
    mkRat (-1559) 10000, mkRat (-850) 10000, mkRat (-1378) 10000, mkRat (-1005) 10000,
    mkRat (-1828) 10000, mkRat (-2076) 10000, mkRat (-49) 10000, mkRat (-1465) 10000,
    mkRat (-1062) 10000, mkRat (-1167) 10000, mkRat (-380) 10000, mkRat (-1259) 10000,
    mkRat (-1127) 10000, mkRat (-1061) 10000, mkRat (-2068) 10000, mkRat 411 10000,
    mkRat (-978) 10000, mkRat (-765) 10000, mkRat (-226) 10000, mkRat (-1240) 10000,
    mkRat (-1099) 10000, mkRat (-1185) 10000, mkRat (-833) 10000, mkRat (-1133) 10000,
    mkRat (-1747) 10000, mkRat (-91) 10000, mkRat (-1372) 10000, mkRat (-939) 10000,
    mkRat (-1557) 10000, mkRat (-1648) 10000, mkRat (-1263) 10000, mkRat (-326) 10000,
    mkRat (-1944) 10000, mkRat (-1816) 10000, mkRat 59 10000, mkRat (-1009) 10000,
    mkRat (-1474) 10000, mkRat (-1396) 10000, mkRat (-269) 10000, mkRat (-1183) 10000,
    mkRat (-893) 10000, mkRat (-275) 10000, mkRat (-1459) 10000, mkRat (-1519) 10000,
    mkRat (-750) 10000, mkRat (-417) 10000, mkRat (-747) 10000, mkRat (-1943) 10000,
    mkRat (-1811) 10000, mkRat (-2460) 10000, mkRat 63 10000, mkRat (-966) 10000,
    mkRat (-3029) 10000, mkRat (-626) 10000, mkRat (-1517) 10000, mkRat (-471) 10000,
    mkRat (-1599) 10000, mkRat (-1057) 10000, mkRat (-2611) 10000, mkRat (-1744) 10000,
    mkRat (-825) 10000, mkRat (-502) 10000, mkRat (-937) 10000, mkRat (-1880) 10000,
    mkRat (-335) 10000, mkRat (-2561) 10000, mkRat (-1768) 10000, mkRat (-460) 10000,
    mkRat (-946) 10000, mkRat (-2273) 10000, mkRat (-1002) 10000, mkRat (-1597) 10000,
    mkRat (-2112) 10000, mkRat (-1022) 10000, mkRat (-1336) 10000, mkRat (-2578) 10000,
    mkRat (-447) 10000, mkRat (-2451) 10000, mkRat (-1326) 10000, mkRat (-1242) 10000,
    mkRat (-1280) 10000, mkRat (-2598) 10000, mkRat (-506) 10000, mkRat (-1412) 10000,
    mkRat (-1960) 10000, mkRat (-1344) 10000, mkRat (-1124) 10000, mkRat (-698) 10000,
    mkRat (-1699) 10000, mkRat (-1816) 10000, mkRat (-484) 10000, mkRat (-1767) 10000,
    mkRat 985 10000, mkRat (-996) 10000, mkRat (-471) 10000, mkRat (-2042) 10000,
    mkRat (-1190) 10000, mkRat (-1257) 10000, mkRat (-1852) 10000, mkRat (-1945) 10000,
    mkRat (-1208) 10000, mkRat (-1091) 10000, mkRat (-448) 10000, mkRat (-754) 10000,
    mkRat (-1580) 10000, mkRat (-1866) 10000, mkRat (-1895) 10000, mkRat (-1033) 10000,
    mkRat (-454) 10000, mkRat (-878) 10000, mkRat (-470) 10000, mkRat (-2538) 10000,
    mkRat (-1369) 10000, mkRat (-1184) 10000, mkRat (-1805) 10000, mkRat (-721) 10000]

/-- The placeholder definition on line 10: `static model_default_t b4[256];` has static
storage duration and no initializer, so every element is zero-initialized. -/
def b4_placeholder : List ℚ := List.replicate 256 0

/-- The two textual definitions of `b4` that the preprocessor can select. -/
inductive B4Def
  | placeholder
  | literalValues
deriving DecidableEq

/-- The build-mode conditional on lines 9-13: `#ifndef __SYNTHESIS__` selects the
placeholder definition when the macro is not defined, `#else` the literal-valued one. -/
def selectB4Def (synthesisDefined : Bool) : B4Def :=
  if synthesisDefined then .literalValues else .placeholder

/-- The array contents contributed by each of the two definitions. -/
def defContent : B4Def → List ℚ
  | .placeholder => b4_placeholder
  | .literalValues => b4_synth_values

/-- The value of the array `b4` in a translation unit compiled in the given build mode
(`true` = `__SYNTHESIS__` defined). -/
def b4 (synthesisDefined : Bool) : List ℚ :=
  defContent (selectB4Def synthesisDefined)

/-- Preprocessor state of one translation unit, as far as `b4.h` is concerned:
whether the guard macro `B4_H_` has been defined, and the definitions of `b4`
emitted so far. -/
structure TUState where
  guardDefined : Bool
  b4Definitions : List (List ℚ)
deriving DecidableEq

/-- Processing one include directive for `b4.h` (lines 6-15): if `B4_H_` is already
defined the whole file body is skipped; otherwise `B4_H_` is defined and the
definition of `b4` selected by the build mode is emitted. -/
def includeB4 (synthesisDefined : Bool) (s : TUState) : TUState :=
  if s.guardDefined then s
  else { guardDefined := true,
         b4Definitions := s.b4Definitions ++ [b4 synthesisDefined] }

/-- A translation unit before any inclusion of `b4.h`. -/
def freshTU : TUState := { guardDefined := false, b4Definitions := [] }

/-- Modelled from the spec: the element type `model_default_t` is declared in a
defines/parameters header that is not part of this fragment.  The spec requires that
its "numeric precision must round-trip the printed literals without lossy truncation
beyond documented 4-decimal rounding", so conversion of a four-decimal literal into
`model_default_t` is modelled as storing the exact rational value. -/
def model_default_ofRat (q : ℚ) : ℚ := q

/-- The four-decimal rendering of a rational, as an integer count of ten-thousandths:
`render4 q = round (q * 10000)`, computed on numerator and denominator so that it
evaluates by kernel reduction.  Two rationals in the range of this table print as the
same four-decimal string exactly when `render4` agrees on them. -/
def render4 (q : ℚ) : ℤ := Int.fdiv (20000 * q.num + (q.den : ℤ)) (2 * (q.den : ℤ))

lemma includeB4_guardDefined (d : Bool) (s : TUState) :
    (includeB4 d s).guardDefined = true := by
  unfold includeB4
  split
  · assumption
  · rfl

lemma includeB4_of_guardDefined (d : Bool) (s : TUState) (h : s.guardDefined = true) :
    includeB4 d s = s := by
  unfold includeB4
  simp [h]

lemma includeB4_iterate_succ (d : Bool) (n : ℕ) :
    (includeB4 d)^[n + 1] freshTU = includeB4 d freshTU := by
  induction n with
  | zero => rfl
  | succ n ih =>
      rw [Function.iterate_succ_apply', ih,
        includeB4_of_guardDefined d _ (includeB4_guardDefined d freshTU)]

/-- C1: with `__SYNTHESIS__` defined, the array `b4` is exactly the 256 literal values of
the initializer, in index order and untransformed; in particular `b4[0] = -0.1326`,
`b4[1] = -0.2092` and `b4[255] = -0.0721`. -/
theorem b4_synthesis_exact_literals :
    b4 true = b4_synth_values ∧
    (b4 true).length = 256 ∧
    (b4 true)[0]? = some (mkRat (-1326) 10000) ∧
    (b4 true)[1]? = some (mkRat (-2092) 10000) ∧
    (b4 true)[255]? = some (mkRat (-721) 10000) := by
  refine ⟨rfl, ?_, ?_, ?_, ?_⟩ <;> decide

/-- C2: in both build modes the array `b4` has exactly 256 elements. -/
theorem b4_length_256 (synthesisDefined : Bool) : (b4 synthesisDefined).length = 256 := by
  cases synthesisDefined <;> decide

/-- Witness for C2 at both concrete build modes. -/
theorem b4_length_256_witness :
    (b4 false).length = 256 ∧ (b4 true).length = 256 :=
  ⟨b4_length_256 false, b4_length_256 true⟩

/-- C3: without `__SYNTHESIS__`, `b4` is the zero-initialized placeholder: all 256
entries are zero. -/
theorem b4_placeholder_all_zero :
    b4 false = List.replicate 256 0 ∧ ∀ x ∈ b4 false, x = 0 :=
  ⟨rfl, by decide⟩

/-- Witness for C3 at the concrete entry `0`. -/
theorem b4_placeholder_all_zero_witness :
    (0 : ℚ) ∈ b4 false ∧ (0 : ℚ) = 0 :=
  ⟨by decide, b4_placeholder_all_zero.2 0 (by decide)⟩

instance instAntisymmRatLe : Std.Antisymm (fun a b : ℚ => a ≤ b) :=
  ⟨fun h1 h2 => le_antisymm h1 h2⟩

/-- C4: in synthesis mode the minimum entry of `b4` is `-0.3029`, the maximum is
`0.0985`, and no entry is zero, matching the three summary comments of lines 2-4. -/
theorem b4_min_max_zero_count :
    (b4 true).min? = some (mkRat (-3029) 10000) ∧
    (b4 true).max? = some (mkRat 985 10000) ∧
    (b4 true).count 0 = 0 := by
  refine ⟨?_, ?_, ?_⟩
  · rw [List.min?_eq_some_iff (fun a => le_refl a) (fun a b => min_choice a b)
      (fun a b c => le_min_iff)]
    decide
  · rw [List.max?_eq_some_iff (fun a => le_refl a) (fun a b => max_choice a b)
      (fun a b c => max_le_iff)]
    decide
  · decide

/-- C5: the include guard is effective: processing the header on a state where `B4_H_`
is already defined changes nothing (inclusion is idempotent), and any number of
inclusions into a fresh translation unit emits at most one definition of `b4`. -/
theorem include_guard_effective (synthesisDefined : Bool) (s : TUState) (n : ℕ) :
    includeB4 synthesisDefined (includeB4 synthesisDefined s) =
      includeB4 synthesisDefined s ∧
    ((includeB4 synthesisDefined)^[n] freshTU).b4Definitions.length ≤ 1 := by
  constructor
  · exact includeB4_of_guardDefined _ _ (includeB4_guardDefined _ _)
  · cases n with
    | zero => exact Nat.zero_le 1
    | succ n =>
        rw [includeB4_iterate_succ]
        unfold includeB4 freshTU
        simp

/-- Witness for C5 in synthesis mode with two inclusions. -/
theorem include_guard_effective_witness :
    includeB4 true (includeB4 true freshTU) = includeB4 true freshTU ∧
    ((includeB4 true)^[2] freshTU).b4Definitions.length ≤ 1 :=
  include_guard_effective true freshTU 2

/-- C6: the table is read-only after definition: once the first inclusion has emitted
the definition of `b4`, the emitted table after any further processing is still exactly
the constant list selected by the build mode — no step of the translation unit ever
mutates it. -/
theorem b4_never_mutated (synthesisDefined : Bool) (n : ℕ) (hn : 1 ≤ n) :
    ((includeB4 synthesisDefined)^[n] freshTU).b4Definitions = [b4 synthesisDefined] := by
  obtain ⟨m, rfl⟩ := Nat.exists_eq_add_of_le hn
  rw [Nat.add_comm, includeB4_iterate_succ]
  unfold includeB4 freshTU
  simp

/-- Witness for C6 in synthesis mode after three inclusions. -/
theorem b4_never_mutated_witness :
    1 ≤ 3 ∧ ((includeB4 true)^[3] freshTU).b4Definitions = [b4 true] :=
  ⟨by decide, b4_never_mutated true 3 (by decide)⟩

/-- C7: in every build mode exactly one of the two definitions of `b4` is selected:
the placeholder exactly when `__SYNTHESIS__` is undefined, the literal-valued one
exactly when it is defined; the two cases are mutually exclusive and exhaustive. -/
theorem b4_definition_selection (synthesisDefined : Bool) :
    (selectB4Def synthesisDefined = .placeholder ↔ synthesisDefined = false) ∧
    (selectB4Def synthesisDefined = .literalValues ↔ synthesisDefined = true) ∧
    ¬(selectB4Def synthesisDefined = .placeholder ∧
        selectB4Def synthesisDefined = .literalValues) ∧
    (selectB4Def synthesisDefined = .placeholder ∨
        selectB4Def synthesisDefined = .literalValues) := by
  cases synthesisDefined <;> decide

/-- Witness for C7 at the concrete build mode with `__SYNTHESIS__` defined. -/
theorem b4_definition_selection_witness :
    (selectB4Def true = .placeholder ↔ true = false) ∧
    (selectB4Def true = .literalValues ↔ true = true) ∧
    ¬(selectB4Def true = .placeholder ∧ selectB4Def true = .literalValues) ∧
    (selectB4Def true = .placeholder ∨ selectB4Def true = .literalValues) :=
  b4_definition_selection true

/-- C8: every printed four-decimal literal round-trips through `model_default_t`:
storing it and rendering the stored value back to four decimals reproduces the
literal exactly. -/
theorem model_default_roundtrip :
    ∀ x ∈ b4_synth_values, mkRat (render4 (model_default_ofRat x)) 10000 = x := by
  decide

/-- Witness for C8 at the first literal `-0.1326`. -/
theorem model_default_roundtrip_witness :
    mkRat (-1326) 10000 ∈ b4_synth_values ∧
    mkRat (render4 (model_default_ofRat (mkRat (-1326) 10000))) 10000 =
      mkRat (-1326) 10000 :=
  ⟨by decide, model_default_roundtrip (mkRat (-1326) 10000) (by decide)⟩

/-- C9: in synthesis mode every entry of `b4` lies in the closed interval
`[-0.3029, 0.0985]` given by the documented minimum and maximum. -/
theorem b4_entries_bounded :
    ∀ x ∈ b4 true, mkRat (-3029) 10000 ≤ x ∧ x ≤ mkRat 985 10000 := by
  decide

/-- Witness for C9 at the first entry `-0.1326`. -/
theorem b4_entries_bounded_witness :
    mkRat (-1326) 10000 ∈ b4 true ∧
    (mkRat (-3029) 10000 ≤ mkRat (-1326) 10000 ∧
      mkRat (-1326) 10000 ≤ mkRat 985 10000) :=
  ⟨by decide, b4_entries_bounded (mkRat (-1326) 10000) (by decide)⟩

/-- C10: the initializer list contains exactly 256 literals, one per array element, so
in synthesis mode no entry of `b4` is filled by implicit aggregate zero-initialization
and the initializer does not exceed the declared size. -/
theorem b4_initializer_complete :
    b4_synth_values.length = 256 ∧ b4 true = b4_synth_values :=
  ⟨by decide, rfl⟩

end B4Header
